import Mathlib

/-!
Verification development for the SmartDocFlow repository: a shallow embedding of
the document ingestion pipeline (app/services/document_processor.py), the
database schema (app/core/database.py), the retrieval engine
(app/api/routes/search.py), and the workflow polling helper
(app/services/workflow_orchestrator.py), together with theorems settling the
specification claims about them.

Modelling conventions:
- Python floats are modelled as rationals (the fusion weights 0.6/0.4 are exact
  decimal literals, so rational arithmetic mirrors the intended arithmetic).
- `None`/falsy handling is modelled with `Option` plus explicit truthiness
  helpers mirroring Python truth testing.
- Fallible code returns `Except`; background code whose exceptions are caught
  and swallowed is a total state transformer.
- The relational store is a record of tables; each committed transaction is a
  pure state update, and a statement that fails before commit leaves the state
  unchanged (pending work is rolled back).
-/

namespace SmartDocFlow

/-- Lowercasing helper mirroring Python str.lower, written over the character
list so that it evaluates by kernel reduction. -/
def strToLower (s : String) : String := String.mk (s.data.map Char.toLower)

/-- File type enum from app/models/document.py (class FileType). -/
inductive FileType where
  | pdf
  | txt
  | png
  | jpg
  | jpeg
deriving DecidableEq, Repr

/-- String value of a FileType member (it is a str Enum). -/
def FileType.value : FileType → String
  | .pdf => "pdf"
  | .txt => "txt"
  | .png => "png"
  | .jpg => "jpg"
  | .jpeg => "jpeg"

/-- Document status enum from app/models/document.py (class DocumentStatus). -/
inductive DocumentStatus where
  | pending
  | processing
  | completed
  | failed
deriving DecidableEq, Repr

/-- String value of a DocumentStatus member (it is a str Enum). -/
def DocumentStatus.value : DocumentStatus → String
  | .pending => "pending"
  | .processing => "processing"
  | .completed => "completed"
  | .failed => "failed"

/-- DocumentStatus(s): constructing the enum from a string raises ValueError
for a string that is not a member value. -/
def parseDocumentStatus (s : String) : Except String DocumentStatus :=
  if s = "pending" then .ok .pending
  else if s = "processing" then .ok .processing
  else if s = "completed" then .ok .completed
  else if s = "failed" then .ok .failed
  else .error ("ValueError: " ++ s ++ " is not a valid DocumentStatus")

/-! ## Filename suffix classification (pathlib semantics)

`DocumentProcessor._get_file_type` computes `Path(filename).suffix.lower()`.
`PurePath.suffix` takes the final path component `name` and returns
`name[i:]` where `i` is the index of the last dot, provided `0 < i < len(name) - 1`,
and the empty string otherwise. -/

/-- Final path component: the characters after the last slash. -/
def afterLastSlash : List Char → List Char
  | [] => []
  | c :: rest =>
    let tail := afterLastSlash rest
    if rest.contains '/' then tail
    else if c = '/' then rest
    else c :: rest

/-- Index of the last occurrence of a dot in the character list, if any. -/
def lastDotIndex : List Char → Option Nat
  | [] => none
  | c :: rest =>
    match lastDotIndex rest with
    | some i => some (i + 1)
    | none => if c = '.' then some 0 else none

/-- Path(filename).suffix following the CPython definition. -/
def pathSuffix (filename : String) : String :=
  let name := afterLastSlash filename.data
  match lastDotIndex name with
  | some i => if 0 < i ∧ i < name.length - 1 then String.mk (name.drop i) else ""
  | none => ""

/-- DocumentProcessor._get_file_type: classify the file type from the lowered
filename suffix; an unsupported suffix raises ValueError. The source matches
.png/.jpg/.jpeg with a membership test and builds FileType(ext[1:]); the
if-chain below enumerates the same three cases. -/
def getFileType (filename : String) : Except String FileType :=
  let ext := strToLower (pathSuffix filename)
  if ext = ".pdf" then .ok .pdf
  else if ext = ".txt" then .ok .txt
  else if ext = ".png" then .ok .png
  else if ext = ".jpg" then .ok .jpg
  else if ext = ".jpeg" then .ok .jpeg
  else .error ("Unsupported file type: " ++ ext)

/-! ## The relational store -/

/-- Columns of the documents table as created by init_db
(app/core/database.py, CREATE TABLE IF NOT EXISTS documents). Note that the
list contains no status column. -/
def documentsColumns : List String :=
  ["id", "filename", "file_path", "file_type", "file_size", "content",
   "content_hash", "created_at", "updated_at"]

/-- A row of the documents table. The fields are the columns populated by the
INSERT in _store_document. `statusMarker` records what a status column would
hold for this row: the schema from init_db has no status column, so no SQL
statement can ever populate it and it stays `none` in every reachable state;
it is carried so that the absence of a persisted status is observable. -/
structure DocRecord where
  id : String
  filename : String
  file_path : String
  file_type : FileType
  file_size : Nat
  content : Option String
  content_hash : Option String
  statusMarker : Option String
deriving DecidableEq, Repr

/-- A row of the document_embeddings table (init_db). The embedding_vector
column stores str(embedding_list); we keep the vector itself, the textual
serialization being a representation detail. -/
structure EmbRecord where
  id : String
  document_id : String
  embedding_vector : List ℚ
  embedding_model : String
deriving DecidableEq, Repr

/-- A row of the search_logs table (init_db). -/
structure SearchLogRow where
  id : String
  query : String
  search_type : String
  results_count : Nat
  execution_time_ms : Nat
deriving DecidableEq, Repr

/-- The mutable state shared through the store: saved upload files, the
documents table, the document_embeddings table and the search_logs table. -/
structure Store where
  files : List String
  documents : List DocRecord
  embeddings : List EmbRecord
  search_logs : List SearchLogRow
deriving DecidableEq, Repr

/-- The empty store. -/
def emptyStore : Store := ⟨[], [], [], []⟩

/-- UPDATE documents SET status = ... WHERE id = ... — the statement references
the status column, which documentsColumns (from init_db) does not contain, so
executing it raises an unknown-column error; the then-branch (which would set
the marker) is dead code under this schema. -/
def updateDocumentStatus (docId newStatus : String) (st : Store) : Except String Store :=
  if "status" ∈ documentsColumns then
    .ok { st with documents := st.documents.map fun r =>
            if r.id = docId then { r with statusMarker := some newStatus } else r }
  else .error "1054: Unknown column status in field list"

/-- DocumentProcessor.get_document_status: SELECT status FROM documents WHERE
id = ... then DocumentStatus(row[0]). With the init_db schema the SELECT itself
fails (no status column); were the column present, a row without a stored
marker would make DocumentStatus(NULL) raise ValueError. -/
def getDocumentStatus (docId : String) (st : Store) : Except String DocumentStatus :=
  if "status" ∈ documentsColumns then
    match st.documents.find? (fun r => r.id = docId) with
    | some r =>
      match r.statusMarker with
      | some s => parseDocumentStatus s
      | none => .error "ValueError: None is not a valid DocumentStatus"
    | none => .error ("Document " ++ docId ++ " not found")
  else .error "1054: Unknown column status in field list"

/-- The status marker persisted for a document id, if any. -/
def docStatusMarker (docId : String) (st : Store) : Option String :=
  match st.documents.find? (fun r => r.id = docId) with
  | some r => r.statusMarker
  | none => none

/-! ## Ingestion pipeline (DocumentProcessor) -/

/-- Python truth test for an optional string: None and the empty string are
falsy. -/
def truthyOptStr : Option String → Bool
  | none => false
  | some s => !(s = "")

/-- In-memory response returned by process_document
(DocumentResponse, app/models/document.py). -/
structure DocumentResponse where
  id : String
  filename : String
  file_path : String
  file_type : FileType
  file_size : Nat
  content : Option String
  content_hash : Option String
  status : DocumentStatus
  created_at : Nat
  updated_at : Nat
deriving DecidableEq, Repr

/-- DocumentProcessor.process_document. Parameters model the external inputs:
`sha` the SHA-256 digest primitive (_generate_content_hash), `uidFile` and
`uidDoc` the two fresh uuid4 values (unique filename, document id),
`extractResult` the outcome of _extract_text (which absorbs its own failures
and yields None on extraction error), `now` the clock. The function returns the
store after the synchronous part together with the result delivered to the
caller; the asynchronous embedding stage (create_task of _generate_embeddings)
is modelled separately by `generateEmbeddings`. On an unsupported extension the
ValueError from _get_file_type propagates (re-wrapped), before the file is
saved and before any row is inserted. -/
def processDocument (sha : String → String) (uidFile uidDoc : String)
    (filename : String) (fileBytes : List Nat) (extractResult : Option String)
    (now : Nat) (st : Store) : Store × Except String DocumentResponse :=
  match getFileType filename with
  | .error e => (st, .error ("Failed to process document: " ++ e))
  | .ok ft =>
    let path := uidFile ++ "_" ++ filename
    let st1 := { st with files := st.files ++ [path] }
    let content := extractResult
    let content_hash := if truthyOptStr content then content.map sha else none
    let row : DocRecord :=
      { id := uidDoc, filename := filename, file_path := path, file_type := ft,
        file_size := fileBytes.length, content := content,
        content_hash := content_hash, statusMarker := none }
    let st2 := { st1 with documents := st1.documents ++ [row] }
    (st2, .ok { id := uidDoc, filename := filename, file_path := path,
                file_type := ft, file_size := fileBytes.length,
                content := content, content_hash := content_hash,
                status := .processing, created_at := now, updated_at := now })

/-- The except-branch of _generate_embeddings: attempt UPDATE ... SET status =
failed, and swallow any exception of that update itself (inner try/except
pass). -/
def embeddingsFailHandler (docId : String) (st : Store) : Store :=
  match updateDocumentStatus docId "failed" st with
  | .ok st2 => st2
  | .error _ => st

/-- DocumentProcessor._generate_embeddings, the background embedding stage.
`embed` models self.embedding_model.encode, which may raise; `embId` the fresh
uuid4 for the embedding row. Empty or missing content returns immediately.
Otherwise the stage inserts the embedding row and updates the document status
to completed, committing at the end; an exception anywhere in the try block
reaches the handler with the uncommitted work rolled back. The function is
total: no exception ever escapes to the caller of the original upload. -/
def generateEmbeddings (embed : String → Except String (List ℚ)) (embId docId : String)
    (content : Option String) (st : Store) : Store :=
  if truthyOptStr content then
    match embed (content.getD "") with
    | .error _ => embeddingsFailHandler docId st
    | .ok vec =>
      let st1 := { st with embeddings := st.embeddings ++
        [{ id := embId, document_id := docId, embedding_vector := vec,
           embedding_model := "all-MiniLM-L6-v2" }] }
      match updateDocumentStatus docId "completed" st1 with
      | .ok st2 => st2
      | .error _ => embeddingsFailHandler docId st
  else st

/-! ## Workflow polling helper (WorkflowOrchestrator._wait_for_processing) -/

/-- The timeout failure raised by the polling helper (TimeoutError), a failure
kind distinct from any returned document status. -/
inductive WaitError where
  | timeout
deriving DecidableEq, Repr

/-- The loop guard observation of _wait_for_processing: the polled status value
is terminal when it is in ["completed", "failed"]. -/
def isTerminalValue (s : DocumentStatus) : Bool :=
  s.value = "completed" ∨ s.value = "failed"

/-- The polling loop of _wait_for_processing. `statusAt t` is the status
observed by get_document_status at `t` seconds after the start; the loop checks
the guard elapsed < timeout, polls, returns a terminal status, and otherwise
sleeps 2 seconds before re-checking. The structural `fuel` argument only bounds
the iteration count; starting it at `timeout` is enough, since elapsed grows by
2 per iteration, and the fuel-exhausted branch coincides with the guard
failing. -/
def waitLoop (statusAt : Nat → DocumentStatus) (timeout : Nat) :
    Nat → Nat → Except WaitError DocumentStatus
  | 0, _ => .error .timeout
  | fuel + 1, elapsed =>
    if elapsed < timeout then
      let s := statusAt elapsed
      if isTerminalValue s then .ok s
      else waitLoop statusAt timeout fuel (elapsed + 2)
    else .error .timeout

/-- WorkflowOrchestrator._wait_for_processing with its default timeout of 60:
poll from elapsed = 0. -/
def waitForProcessing (statusAt : Nat → DocumentStatus) (timeout : Nat := 60) :
    Except WaitError DocumentStatus :=
  waitLoop statusAt timeout timeout 0

/-! ## Retrieval engine (app/api/routes/search.py)

The store search capabilities search_similar_documents and full_text_search
(app/core/database.py) return rows of the shapes selected by their SQL: five
columns (id, filename, content, embedding, distance) for the vector query and
four columns (id, filename, content, relevance_score) for the full-text query.
A SearchDB packages the two row sources for a fixed query text; the requested
limit (and, for the vector query, the threshold) remain explicit arguments. -/

/-- A row returned by search_similar_documents: SELECT d.id, d.filename,
d.content, JSON_EXTRACT(...) embedding, distance. -/
structure VRow where
  id : String
  filename : String
  content : String
  embedding : String
  distance : ℚ
deriving DecidableEq, Repr

/-- A row returned by full_text_search: SELECT id, filename, content,
MATCH ... AGAINST ... relevance_score. -/
structure FRow where
  id : String
  filename : String
  content : String
  relevance : ℚ
deriving DecidableEq, Repr

/-- The store search capability for one query: the rows the two SQL queries
return for a requested limit (and threshold for the vector side). -/
structure SearchDB where
  similarRows : Nat → ℚ → List VRow
  ftRows : Nat → List FRow

/-- A search result (DocumentSearchResult, app/models/document.py). The model
declares id, filename, content, similarity_score, relevance_score and
created_at — and no file_type field. created_at is a REQUIRED non-optional
datetime (document.py line 56): a value of this type always carries one
(modelled as an integer timestamp). -/
structure DocumentSearchResult where
  id : String
  filename : String
  content : Option String
  similarity_score : Option ℚ
  relevance_score : Option ℚ
  created_at : Int
deriving DecidableEq, Repr

/-- Pydantic construction of a DocumentSearchResult (config.py imports
pydantic_settings, so this is pydantic v2): the created_at field is required
and non-optional, so passing None for it raises ValidationError; the call
sites in search.py compute it as doc[i] if len(doc) > i else None, hence pass
an Option. -/
def mkDocumentSearchResult (id filename : String) (content : Option String)
    (similarity_score relevance_score : Option ℚ) (created_at : Option Int) :
    Except String DocumentSearchResult :=
  match created_at with
  | some t => .ok ⟨id, filename, content, similarity_score, relevance_score, t⟩
  | none =>
    .error "ValidationError: created_at input should be a valid datetime, received None"

/-- Content truncation applied when building results: the first 500 characters
followed by an ellipsis if the content is longer. -/
def truncContent (s : String) : String :=
  if s.length > 500 then String.mk (s.data.take 500) ++ "..." else s

/-- The result-building loop of _vector_search: construct a
DocumentSearchResult per row with similarity = 1 - distance. The SQL selects
five columns, so len(doc) > 5 is false and created_at is always None — every
construction raises ValidationError, aborting the loop at the first row. -/
def buildVectorResults : List VRow → Except String (List DocumentSearchResult)
  | [] => .ok []
  | doc :: rest =>
    match mkDocumentSearchResult doc.id doc.filename
      (some (truncContent doc.content)) (some (1 - doc.distance)) none none with
    | .error e => .error e
    | .ok r =>
      match buildVectorResults rest with
      | .error e => .error e
      | .ok rs => .ok (r :: rs)

/-- _vector_search: fetch rows from search_similar_documents and build the
result list; the ValidationError of any row construction propagates. -/
def vectorSearch (db : SearchDB) (limit : Nat) (threshold : ℚ) :
    Except String (List DocumentSearchResult) :=
  buildVectorResults (db.similarRows limit threshold)

/-- The result-building loop of _fulltext_search: construct a
DocumentSearchResult per row carrying the relevance score. The SQL selects
four columns, so len(doc) > 4 is false and created_at is always None — every
construction raises ValidationError, aborting the loop at the first row. -/
def buildFulltextResults : List FRow → Except String (List DocumentSearchResult)
  | [] => .ok []
  | doc :: rest =>
    match mkDocumentSearchResult doc.id doc.filename
      (some (truncContent doc.content)) none (some doc.relevance) none with
    | .error e => .error e
    | .ok r =>
      match buildFulltextResults rest with
      | .error e => .error e
      | .ok rs => .ok (r :: rs)

/-- _fulltext_search: fetch rows from full_text_search and build the result
list; the ValidationError of any row construction propagates. -/
def fulltextSearch (db : SearchDB) (limit : Nat) :
    Except String (List DocumentSearchResult) :=
  buildFulltextResults (db.ftRows limit)

/-! ## Hybrid fusion (_hybrid_search) -/

/-- Python `x or 0` over an optional score: None (and 0) become 0. -/
def orZero : Option ℚ → ℚ
  | none => 0
  | some v => v

/-- One value of the combined_results dict: the originating result and the two
scores. -/
structure ScoreEntry where
  result : DocumentSearchResult
  vector_score : ℚ
  fulltext_score : ℚ
deriving DecidableEq, Repr

/-- Python dict assignment d[k] = v on an insertion-ordered association list:
overwrite in place if the key is present, else append at the end. -/
def dictInsert (k : String) (v : ScoreEntry) :
    List (String × ScoreEntry) → List (String × ScoreEntry)
  | [] => [(k, v)]
  | (k1, v1) :: rest =>
    if k1 = k then (k, v) :: rest else (k1, v1) :: dictInsert k v rest

/-- Dict lookup: the value stored at a key, if present. -/
def lookupD (k : String) : List (String × ScoreEntry) → Option ScoreEntry
  | [] => none
  | (k1, v1) :: rest => if k1 = k then some v1 else lookupD k rest

/-- First loop of _hybrid_search: for each vector result, set
combined[id] = (result, similarity_score or 0, 0). -/
def addVectorResults : List DocumentSearchResult →
    List (String × ScoreEntry) → List (String × ScoreEntry)
  | [], m => m
  | r :: rs, m =>
    addVectorResults rs (dictInsert r.id ⟨r, orZero r.similarity_score, 0⟩ m)

/-- Second loop of _hybrid_search: for each full-text result, update the
fulltext_score of an existing entry, or insert a new entry with vector_score
0. -/
def addFulltextResults : List DocumentSearchResult →
    List (String × ScoreEntry) → List (String × ScoreEntry)
  | [], m => m
  | r :: rs, m =>
    let v : ScoreEntry :=
      match lookupD r.id m with
      | some e => { e with fulltext_score := orZero r.relevance_score }
      | none => ⟨r, 0, orZero r.relevance_score⟩
    addFulltextResults rs (dictInsert r.id v m)

/-- The combined_results dict built from the two candidate lists. -/
def combinedResults (vrs fts : List DocumentSearchResult) :
    List (String × ScoreEntry) :=
  addFulltextResults fts (addVectorResults vrs [])

/-- hybrid_score = vector_score * 0.6 + fulltext_score * 0.4. -/
def entryScore (e : ScoreEntry) : ℚ :=
  e.vector_score * 0.6 + e.fulltext_score * 0.4

/-- The hybrid score _hybrid_search computes for a document id in the union of
the two candidate lists (none if the id is in neither). -/
def hybridScoreOf (vrs fts : List DocumentSearchResult) (d : String) : Option ℚ :=
  (lookupD d (combinedResults vrs fts)).map entryScore

/-- Stable insertion into a list sorted by descending score: an element is
placed before the first element whose score does not exceed it, so earlier
elements precede later ones on ties. -/
def insertByScoreDesc (x : DocumentSearchResult × ℚ) :
    List (DocumentSearchResult × ℚ) → List (DocumentSearchResult × ℚ)
  | [] => [x]
  | y :: ys => if y.2 ≤ x.2 then x :: y :: ys else y :: insertByScoreDesc x ys

/-- Stable sort by descending score, modelling
hybrid_results.sort(key score, reverse True) (Python list.sort is stable). -/
def sortByScoreDesc : List (DocumentSearchResult × ℚ) →
    List (DocumentSearchResult × ℚ)
  | [] => []
  | x :: xs => insertByScoreDesc x (sortByScoreDesc xs)

/-- The fusion pipeline of _hybrid_search after its two sub-search calls: fuse
the score pairs of the two candidate lists, overwrite each surviving result
similarity field with its hybrid score, sort descending by hybrid score and
truncate to limit. -/
def hybridFuse (vector_results fulltext_results : List DocumentSearchResult)
    (limit : Nat) : List DocumentSearchResult :=
  let combined := combinedResults vector_results fulltext_results
  let hybrid_results := combined.map fun p =>
    ({ p.2.result with similarity_score := some (entryScore p.2) }, entryScore p.2)
  ((sortByScoreDesc hybrid_results).take limit).map Prod.fst

/-- _hybrid_search over abstract sub-searches: run each sub-search requesting
limit * 2 candidates and fuse. -/
def hybridSearch (vecSearch ftSearch : Nat → List DocumentSearchResult)
    (limit : Nat) : List DocumentSearchResult :=
  hybridFuse (vecSearch (limit * 2)) (ftSearch (limit * 2)) limit

/-- _hybrid_search against the store: await _vector_search with limit * 2 and
threshold, await _fulltext_search with limit * 2 (an exception from either
sub-search propagates out of _hybrid_search), then fuse. -/
def hybridSearchDB (db : SearchDB) (limit : Nat) (threshold : ℚ) :
    Except String (List DocumentSearchResult) :=
  match vectorSearch db (limit * 2) threshold with
  | .error e => .error e
  | .ok vector_results =>
    match fulltextSearch db (limit * 2) with
    | .error e => .error e
    | .ok fulltext_results =>
      .ok (hybridFuse vector_results fulltext_results limit)

/-! ## Top-level search endpoint (search_documents) -/

/-- DocumentSearchRequest (app/models/document.py). -/
structure DocumentSearchRequest where
  query : String
  search_type : String := "hybrid"
  limit : Nat := 10
  threshold : ℚ := 0.7
  file_types : Option (List FileType) := none
  date_from : Option Int := none
  date_to : Option Int := none

/-- An HTTPException surfaced by the endpoint: status code and detail. -/
structure HTTPError where
  status_code : Nat
  detail : String
deriving DecidableEq, Repr

/-- DocumentSearchResponse (app/models/document.py). -/
structure DocumentSearchResponse where
  results : List DocumentSearchResult
  total_count : Nat
  search_type : String
  execution_time_ms : Nat
  query : String
deriving DecidableEq, Repr

/-- Attribute access r.file_type on a search result. DocumentSearchResult
(app/models/document.py) defines no file_type field, so the access raises
AttributeError for every result. -/
def fileTypeOf (_ : DocumentSearchResult) : Except String FileType :=
  .error "AttributeError: DocumentSearchResult object has no attribute file_type"

/-- The comprehension [r for r in results if r.file_type in request.file_types]:
evaluate r.file_type for each element in order, keeping the element when the
value is in the allowed list; the first attribute error aborts the
comprehension. -/
def filterByFileTypes (fts : List FileType) :
    List DocumentSearchResult → Except String (List DocumentSearchResult)
  | [] => .ok []
  | r :: rs => do
    let ft ← fileTypeOf r
    let rest ← filterByFileTypes fts rs
    if ft ∈ fts then return r :: rest else return rest

/-- _filter_by_date: keep a result when its created_at is not before date_from
(when given) and not after date_to (when given). The source first tests
`if result.created_at:`, which is always true here: created_at is a required
datetime field and Python datetimes are always truthy. -/
def filterByDate (results : List DocumentSearchResult)
    (date_from date_to : Option Int) : List DocumentSearchResult :=
  results.filter fun r =>
    (match date_from with | none => true | some a => !(r.created_at < a)) &&
    (match date_to with | none => true | some b => !(b < r.created_at))

/-- Python truth test on the optional file_types list: None and the empty list
are falsy. -/
def truthyFileTypes : Option (List FileType) → Bool
  | none => false
  | some l => !l.isEmpty

/-- The outcome of the selected search mode: the search_type is lowered and
dispatched to _vector_search, _fulltext_search or _hybrid_search (each of
which may raise); any other value is an invalid search type (none). -/
def modeResults (db : SearchDB) (req : DocumentSearchRequest) :
    Option (Except String (List DocumentSearchResult)) :=
  let st := strToLower req.search_type
  if st = "vector" then some (vectorSearch db req.limit req.threshold)
  else if st = "fulltext" then some (fulltextSearch db req.limit)
  else if st = "hybrid" then some (hybridSearchDB db req.limit req.threshold)
  else none

/-- First post-filter of search_documents: the file-type filter, applied only
when request.file_types is truthy. -/
def applyFileTypeFilter (req : DocumentSearchRequest)
    (results : List DocumentSearchResult) :
    Except String (List DocumentSearchResult) :=
  if truthyFileTypes req.file_types then
    filterByFileTypes (req.file_types.getD []) results
  else .ok results

/-- Second post-filter of search_documents: the date filter, applied only when
date_from or date_to is given. -/
def applyDateFilter (req : DocumentSearchRequest)
    (results : List DocumentSearchResult) : List DocumentSearchResult :=
  if req.date_from.isSome || req.date_to.isSome then
    filterByDate results req.date_from req.date_to
  else results

/-- The fully post-filtered candidate list of a request, when the request does
not fail: mode dispatch, then the file-type filter, then the date filter. -/
def postFilteredOf (db : SearchDB) (req : DocumentSearchRequest) :
    Option (List DocumentSearchResult) :=
  match modeResults db req with
  | none => none
  | some (.error _) => none
  | some (.ok results) =>
    match applyFileTypeFilter req results with
    | .error _ => none
    | .ok r1 => some (applyDateFilter req r1)

/-- search_documents: dispatch on the lowered search type (unknown types raise
HTTP 400), surface an exception from the mode sub-search or the post-filters
as HTTP 500, and otherwise respond with the filtered results truncated to
limit and total_count the length of the filtered list before truncation.
`timeMs` is the measured wall-clock execution time recorded in the response
(and passed to _log_search, modelled separately by `logSearch`). -/
def searchDocuments (db : SearchDB) (req : DocumentSearchRequest)
    (timeMs : Nat) : Except HTTPError DocumentSearchResponse :=
  match modeResults db req with
  | none => .error ⟨400, "Invalid search type. Use vector, fulltext, or hybrid"⟩
  | some (.error e) => .error ⟨500, e⟩
  | some (.ok results) =>
    match applyFileTypeFilter req results with
    | .error e => .error ⟨500, e⟩
    | .ok r1 =>
      let r2 := applyDateFilter req r1
      .ok { results := r2.take req.limit, total_count := r2.length,
            search_type := strToLower req.search_type,
            execution_time_ms := timeMs, query := req.query }

/-! ## Audit logging (_log_search) -/

/-- The INSERT statement text assigned to the local variable query inside
_log_search (whitespace normalised). -/
def logSearchStatement : String :=
  "INSERT INTO search_logs (id, query, search_type, results_count, execution_time_ms) VALUES (:id, :query, :search_type, :results_count, :execution_time_ms)"

/-- _log_search. The body rebinds its `query` parameter to the SQL INSERT text
before the bind parameters are built, so the value bound to the :query column
is the statement text, not the submitted query. Any database failure (`dbOk`
false) is caught and ignored: the log is left unchanged and nothing is raised,
so the function is total. -/
def logSearch (dbOk : Bool) (logId query searchType : String)
    (resultsCount timeMs : Nat) (logs : List SearchLogRow) : List SearchLogRow :=
  let query := logSearchStatement
  if dbOk then
    logs ++ [{ id := logId, query := query, search_type := searchType,
               results_count := resultsCount, execution_time_ms := timeMs }]
  else logs

/-! ## Dictionary lemmas for the hybrid fusion -/

theorem lookupD_dictInsert (k d : String) (v : ScoreEntry)
    (m : List (String × ScoreEntry)) :
    lookupD d (dictInsert k v m) = if k = d then some v else lookupD d m := by
  induction m with
  | nil => simp [dictInsert, lookupD]
  | cons p rest ih =>
    obtain ⟨k1, v1⟩ := p
    by_cases h1 : k1 = k
    · subst h1
      by_cases h2 : k1 = d <;> simp [dictInsert, lookupD, h2]
    · by_cases h2 : k1 = d
      · subst h2
        have : ¬(k = k1) := fun h => h1 h.symm
        simp [dictInsert, lookupD, h1, this, ih]
      · simp [dictInsert, lookupD, h1, h2, ih]

theorem lookupD_addVectorResults_not_mem (rs : List DocumentSearchResult)
    (m : List (String × ScoreEntry)) (d : String)
    (h : d ∉ rs.map fun r => r.id) :
    lookupD d (addVectorResults rs m) = lookupD d m := by
  induction rs generalizing m with
  | nil => rfl
  | cons r rs ih =>
    simp only [List.map_cons, List.mem_cons] at h
    push_neg at h
    simp only [addVectorResults]
    rw [ih _ h.2, lookupD_dictInsert]
    rw [if_neg (fun hh => h.1 hh.symm)]

theorem lookupD_addVectorResults_mem (rs : List DocumentSearchResult)
    (m : List (String × ScoreEntry)) (vr : DocumentSearchResult)
    (hmem : vr ∈ rs) (hnd : (rs.map fun r => r.id).Nodup) :
    lookupD vr.id (addVectorResults rs m) =
      some ⟨vr, orZero vr.similarity_score, 0⟩ := by
  induction rs generalizing m with
  | nil => cases hmem
  | cons r rs ih =>
    simp only [List.map_cons, List.nodup_cons] at hnd
    rcases List.mem_cons.mp hmem with h | h
    · subst h
      simp only [addVectorResults]
      rw [lookupD_addVectorResults_not_mem rs _ _ hnd.1, lookupD_dictInsert]
      simp
    · exact ih _ h hnd.2

theorem lookupD_addFulltextResults_not_mem (rs : List DocumentSearchResult)
    (m : List (String × ScoreEntry)) (d : String)
    (h : d ∉ rs.map fun r => r.id) :
    lookupD d (addFulltextResults rs m) = lookupD d m := by
  induction rs generalizing m with
  | nil => rfl
  | cons r rs ih =>
    simp only [List.map_cons, List.mem_cons] at h
    push_neg at h
    simp only [addFulltextResults]
    rw [ih _ h.2, lookupD_dictInsert]
    rw [if_neg (fun hh => h.1 hh.symm)]

theorem lookupD_addFulltextResults_mem (rs : List DocumentSearchResult)
    (m : List (String × ScoreEntry)) (fr : DocumentSearchResult)
    (hmem : fr ∈ rs) (hnd : (rs.map fun r => r.id).Nodup) :
    lookupD fr.id (addFulltextResults rs m) =
      some (match lookupD fr.id m with
            | some e => { e with fulltext_score := orZero fr.relevance_score }
            | none => ⟨fr, 0, orZero fr.relevance_score⟩) := by
  induction rs generalizing m with
  | nil => cases hmem
  | cons r rs ih =>
    simp only [List.map_cons, List.nodup_cons] at hnd
    rcases List.mem_cons.mp hmem with h | h
    · subst h
      simp only [addFulltextResults]
      rw [lookupD_addFulltextResults_not_mem rs _ _ hnd.1, lookupD_dictInsert]
      simp
    · have hne : r.id ≠ fr.id := fun he => hnd.1 (he ▸ List.mem_map_of_mem _ h)
      simp only [addFulltextResults]
      rw [ih _ h hnd.2, lookupD_dictInsert, if_neg hne]

/-- C1: for every pair of candidate lists (with distinct document ids within
each list, as delivered by the keyed store), the hybrid fusion of
_hybrid_search assigns each document of the union the score
0.6 * vector_score + 0.4 * fulltext_score, a missing side defaulting to 0: a
document in both lists with scores (v, f) receives exactly 0.6v + 0.4f, a
document only in the vector list receives exactly 0.6 times its vector score,
and a document only in the full-text list receives exactly 0.4 times its
relevance score. -/
theorem hybrid_fusion_scores (vrs fts : List DocumentSearchResult)
    (hv : (vrs.map fun r => r.id).Nodup) (hf : (fts.map fun r => r.id).Nodup) :
    (∀ vr fr v f, vr ∈ vrs → fr ∈ fts → fr.id = vr.id →
      vr.similarity_score = some v → fr.relevance_score = some f →
      hybridScoreOf vrs fts vr.id = some (0.6 * v + 0.4 * f)) ∧
    (∀ vr v, vr ∈ vrs → vr.id ∉ fts.map (fun r => r.id) →
      vr.similarity_score = some v →
      hybridScoreOf vrs fts vr.id = some (0.6 * v)) ∧
    (∀ fr f, fr ∈ fts → fr.id ∉ vrs.map (fun r => r.id) →
      fr.relevance_score = some f →
      hybridScoreOf vrs fts fr.id = some (0.4 * f)) := by
  refine ⟨?_, ?_, ?_⟩
  · intro vr fr v f hvr hfr hid hsv hsf
    have h1 := lookupD_addVectorResults_mem vrs [] vr hvr hv
    have h2 := lookupD_addFulltextResults_mem fts (addVectorResults vrs []) fr hfr hf
    rw [hid, h1] at h2
    unfold hybridScoreOf combinedResults
    rw [h2]
    simp only [Option.map_some', entryScore, hsv, hsf, orZero]
    exact congrArg some (by ring)
  · intro vr v hvr hnot hsv
    have h1 := lookupD_addVectorResults_mem vrs [] vr hvr hv
    have h2 := lookupD_addFulltextResults_not_mem fts (addVectorResults vrs []) vr.id hnot
    unfold hybridScoreOf combinedResults
    rw [h2, h1]
    simp only [Option.map_some', entryScore, hsv, orZero]
    exact congrArg some (by ring)
  · intro fr f hfr hnot hsf
    have h1 := lookupD_addVectorResults_not_mem vrs [] fr.id hnot
    have h2 := lookupD_addFulltextResults_mem fts (addVectorResults vrs []) fr hfr hf
    simp only [lookupD] at h1
    rw [h1] at h2
    unfold hybridScoreOf combinedResults
    rw [h2]
    simp only [Option.map_some', entryScore, hsf, orZero]
    exact congrArg some (by ring)

/-- Vector-search candidates used by the fusion witness. -/
def c1vrs : List DocumentSearchResult :=
  [⟨"a", "fa", none, some 1, none, 0⟩, ⟨"b", "fb", none, some (1/2), none, 0⟩]

/-- Full-text candidates used by the fusion witness. -/
def c1fts : List DocumentSearchResult :=
  [⟨"a", "fa", none, none, some (1/2), 0⟩, ⟨"c", "fc", none, none, some 1, 0⟩]

/-- C1 witness: concrete fusion of two two-element candidate lists; document a
is in both lists with scores (1, 1/2), document b only in the vector list with
score 1/2, document c only in the full-text list with score 1. -/
theorem hybrid_fusion_scores_witness :
    hybridScoreOf c1vrs c1fts "a" = some (0.6 * 1 + 0.4 * (1 / 2)) ∧
    hybridScoreOf c1vrs c1fts "b" = some (0.6 * (1 / 2)) ∧
    hybridScoreOf c1vrs c1fts "c" = some (0.4 * 1) := by
  obtain ⟨h1, h2, h3⟩ := hybrid_fusion_scores c1vrs c1fts (by decide) (by decide)
  refine ⟨?_, ?_, ?_⟩
  · exact h1 ⟨"a", "fa", none, some 1, none, 0⟩
      ⟨"a", "fa", none, none, some (1/2), 0⟩ 1 (1/2)
      (List.mem_cons_self _ _) (List.mem_cons_self _ _) rfl rfl rfl
  · exact h2 ⟨"b", "fb", none, some (1/2), none, 0⟩ (1/2)
      (List.mem_cons_of_mem _ (List.mem_cons_self _ _)) (by decide) rfl
  · exact h3 ⟨"c", "fc", none, none, some 1, 0⟩ 1
      (List.mem_cons_of_mem _ (List.mem_cons_self _ _)) (by decide) rfl

/-! ## Claims about the ingestion pipeline -/

/-- Store produced by uploading a txt file whose extracted content is empty:
one saved file and one document row with content some "" and no content hash. -/
def c2Store : Store :=
  (processDocument id "u1" "d" "a.txt" [] (some "") 0 emptyStore).1

/-- C2 counterexample: at the concrete store holding the accepted upload d with
empty extracted content, the background embedding stage runs to completion,
skips embedding generation — but leaves the store completely unchanged: the
document carries no completed (nor failed) marker afterwards, refuting that it
is left in the terminal status completed. -/
theorem empty_content_not_completed_cex :
    generateEmbeddings (fun _ => .ok [1]) "e1" "d" (some "") c2Store = c2Store ∧
    docStatusMarker "d" c2Store ≠ some "completed" ∧
    docStatusMarker "d" c2Store ≠ some "failed" :=
  ⟨rfl, by decide, by decide⟩

/-- C2 (amended): for every accepted upload whose extracted content is empty or
null, the background embedding stage skips embedding generation and returns
without raising, leaving the store unchanged — so the document stays in
whatever (non-terminal) state submission left it in and does not reach
completed. -/
theorem empty_content_skips_embeddings
    (embed : String → Except String (List ℚ)) (embId docId : String)
    (content : Option String) (st : Store)
    (h : truthyOptStr content = false) :
    generateEmbeddings embed embId docId content st = st := by
  unfold generateEmbeddings
  rw [h]
  simp

/-- C2 witness: the amended statement applied to the concrete empty-content
upload. -/
theorem empty_content_skips_embeddings_witness :
    generateEmbeddings (fun _ => .ok [1]) "e2" "d" (some "") emptyStore =
      emptyStore :=
  empty_content_skips_embeddings (fun _ => .ok [1]) "e2" "d" (some "")
    emptyStore (by decide)

/-- C3: uploading a.txt is accepted and the caller is handed a response
claiming status processing, but the synchronously persisted row carries no
status marker at all (the INSERT of _store_document writes none and the
documents schema of init_db has no status column), so the immediate status
query for the new document id fails with an unknown-column error instead of
succeeding with processing. -/
theorem status_query_after_upload_fails :
    ((processDocument id "u1" "u2" "a.txt" [104, 105] (some "hi") 0
        emptyStore).2.map fun r => r.status) = .ok .processing ∧
    getDocumentStatus "u2"
        (processDocument id "u1" "u2" "a.txt" [104, 105] (some "hi") 0
          emptyStore).1 =
      .error "1054: Unknown column status in field list" ∧
    docStatusMarker "u2"
        (processDocument id "u1" "u2" "a.txt" [104, 105] (some "hi") 0
          emptyStore).1 = none :=
  ⟨rfl, rfl, rfl⟩

/-- Store produced by uploading doc.txt with non-empty extracted content
hello; the background stage for it has real work to do. -/
def c7Store : Store :=
  (processDocument id "u1" "d" "doc.txt" [104, 105] (some "hello") 0
    emptyStore).1

/-- C7: when the embedder raises during the background embedding stage, the
exception is caught (generateEmbeddings is a total state transformer: nothing
reaches the caller of the original submission) — but the store is left
unchanged rather than carrying a failed marker: the UPDATE setting status to
failed itself fails against the init_db schema (no status column) and the
inner except swallows that too, so the outcome is not even observable by
polling. -/
theorem embedding_exception_swallowed_no_failed_marker :
    generateEmbeddings (fun _ => .error "boom") "e1" "d" (some "hello")
      c7Store = c7Store ∧
    docStatusMarker "d" c7Store ≠ some "failed" :=
  ⟨rfl, by decide⟩

/-- C5: for every pair of sub-searches and every limit, _hybrid_search returns
at most limit results, even though its body requests limit * 2 candidates from
each sub-search (the over-fetch is visible in the definition of
hybridSearch). -/
theorem hybrid_search_respects_limit
    (vecSearch ftSearch : Nat → List DocumentSearchResult) (limit : Nat) :
    (hybridSearch vecSearch ftSearch limit).length ≤ limit := by
  simp only [hybridSearch, hybridFuse, List.length_map, List.length_take]
  exact Nat.min_le_left _ _

/-! ## Claims about the polling helper -/

theorem isTerminalValue_iff (s : DocumentStatus) :
    isTerminalValue s = true ↔ (s = .completed ∨ s = .failed) := by
  cases s <;> decide

theorem waitLoop_ok_terminal (statusAt : Nat → DocumentStatus) (timeout : Nat) :
    ∀ fuel elapsed s, waitLoop statusAt timeout fuel elapsed = .ok s →
      isTerminalValue s = true := by
  intro fuel
  induction fuel with
  | zero => intro elapsed s h; cases h
  | succ n ih =>
    intro elapsed s h
    simp only [waitLoop] at h
    split_ifs at h with h1 h2
    all_goals first
      | (cases h; exact h2)
      | (exact ih _ _ h)

theorem waitLoop_timeout_iff (statusAt : Nat → DocumentStatus) (timeout : Nat) :
    ∀ fuel elapsed, elapsed % 2 = 0 → timeout ≤ elapsed + 2 * fuel →
      (waitLoop statusAt timeout fuel elapsed = .error .timeout ↔
       ∀ t, t % 2 = 0 → elapsed ≤ t → t < timeout →
         isTerminalValue (statusAt t) = false) := by
  intro fuel
  induction fuel with
  | zero =>
    intro elapsed he hf
    constructor
    · intro _ t ht hle hlt; omega
    · intro _; rfl
  | succ n ih =>
    intro elapsed he hf
    simp only [waitLoop]
    split_ifs with h1 h2
    · constructor
      · intro h; cases h
      · intro hall
        rw [hall elapsed he le_rfl h1] at h2
        cases h2
    · rw [Bool.not_eq_true] at h2
      rw [ih (elapsed + 2) (by omega) (by omega)]
      constructor
      · intro hall t ht hle hlt
        rcases Nat.eq_or_lt_of_le hle with heq | hlt2
        · rw [← heq]; exact h2
        · exact hall t ht (by omega) hlt
      · intro hall t ht hle hlt
        exact hall t ht (by omega) hlt
    · constructor
      · intro _ t ht hle hlt; omega
      · intro _; rfl

/-- C8: the polling helper _wait_for_processing checks the document status only
at the poll instants 0, 2, 4, ... (one check every fixed interval of 2 time
units): (i) whatever it returns is a terminal status; (ii) it raises the
timeout failure exactly when no poll instant before the timeout observes a
terminal status; (iii) a failed status observed at a poll instant is returned
as a value — a processing failure yields a normal return, distinct from the
raised TimeoutError. -/
theorem wait_for_processing_spec (statusAt : Nat → DocumentStatus)
    (timeout : Nat) :
    (∀ s, waitForProcessing statusAt timeout = .ok s →
       s = .completed ∨ s = .failed) ∧
    (waitForProcessing statusAt timeout = .error .timeout ↔
       ∀ t, t % 2 = 0 → t < timeout →
         ¬(statusAt t = .completed ∨ statusAt t = .failed)) ∧
    (∀ t, t % 2 = 0 → t < timeout → statusAt t = .failed →
       ∃ s, waitForProcessing statusAt timeout = .ok s) := by
  have hiff := waitLoop_timeout_iff statusAt timeout timeout 0 (by omega)
    (by omega)
  refine ⟨?_, ?_, ?_⟩
  · intro s h
    exact (isTerminalValue_iff s).mp
      (waitLoop_ok_terminal statusAt timeout timeout 0 s h)
  · unfold waitForProcessing
    rw [hiff]
    constructor
    · intro hall t ht hlt hterm
      have h1 := hall t ht (Nat.zero_le t) hlt
      rw [(isTerminalValue_iff _).mpr hterm] at h1
      cases h1
    · intro hall t ht _ hlt
      cases hb : isTerminalValue (statusAt t) with
      | false => rfl
      | true => exact absurd ((isTerminalValue_iff _).mp hb) (hall t ht hlt)
  · intro t ht hlt hfail
    cases hres : waitForProcessing statusAt timeout with
    | ok s => exact ⟨s, rfl⟩
    | error e =>
      cases e
      unfold waitForProcessing at hres
      have h1 := (hiff.mp hres) t ht (Nat.zero_le t) hlt
      rw [(isTerminalValue_iff _).mpr (Or.inr hfail)] at h1
      cases h1

/-- C8 witness: a document that is failed from the start is returned as a
value by the helper, and a trace that never reaches a terminal status inside
the timeout window makes the helper raise the timeout failure. -/
theorem wait_for_processing_spec_witness :
    (∃ s, waitForProcessing (fun _ => DocumentStatus.failed) 60 = .ok s) ∧
    waitForProcessing (fun _ => DocumentStatus.processing) 6 =
      .error .timeout := by
  constructor
  · exact (wait_for_processing_spec (fun _ => .failed) 60).2.2 0 (by decide)
      (by decide) rfl
  · exact (wait_for_processing_spec (fun _ => .processing) 6).2.1.mpr
      (fun t _ _ => by decide)

/-! ## Claims about the search endpoint -/

/-- Search capability with no vector rows and one full-text row, used to
exhibit the file-type filter failure. -/
def c6db : SearchDB := ⟨fun _ _ => [], fun _ => [⟨"d1", "f1", "c1", 1⟩]⟩

/-- A full-text request asking for the pdf file-type post-filter. -/
def c6req : DocumentSearchRequest :=
  { query := "q", search_type := "fulltext", file_types := some [.pdf] }

/-- C6: the claimed pure filter-then-truncate pipeline never executes on a
nonempty candidate list. At the concrete request asking for the pdf file-type
filter over a store with one matching full-text row, the search fails with
HTTP 500: the pydantic ValidationError raised while constructing the results
(created_at is required but the four-column SQL always yields None) aborts
_fulltext_search before any post-filter runs. And even on a result list that
had been constructed, the file-type filter could not run purely: the
comprehension reads r.file_type, a field DocumentSearchResult does not
declare, so it raises AttributeError at its first element. -/
theorem filtered_search_fails_before_filtering :
    searchDocuments c6db c6req 5 =
      .error ⟨500,
        "ValidationError: created_at input should be a valid datetime, received None"⟩ ∧
    filterByFileTypes [FileType.pdf] [⟨"d1", "f1", some "c1", none, some 1, 0⟩] =
      .error "AttributeError: DocumentSearchResult object has no attribute file_type" :=
  ⟨rfl, rfl⟩

/-- C9: _log_search does not record the submitted query text: the row it
writes carries the INSERT statement itself in the query column (the local
variable query is rebound to the SQL text before the bind parameters are
built), and a database failure while logging is swallowed, leaving the log
unchanged and raising nothing. -/
theorem log_search_records_statement_not_query :
    (logSearch true "L1" "hello world" "hybrid" 3 12 []).map (fun r => r.query)
      = [logSearchStatement] ∧
    logSearchStatement ≠ "hello world" ∧
    logSearch false "L1" "hello world" "hybrid" 3 12 [] = [] :=
  ⟨rfl, by decide, rfl⟩

/-- Search capability with two full-text rows: under the claimed semantics the
fulltext request below would yield total_count 2 with limit 1. -/
def c10db : SearchDB :=
  ⟨fun _ _ => [], fun _ => [⟨"d1", "f1", "c1", 1⟩, ⟨"d2", "f2", "c2", 1 / 2⟩]⟩

/-- A full-text request with limit 1 over c10db. -/
def c10req : DocumentSearchRequest :=
  { query := "q", search_type := "fulltext", limit := 1 }

/-- C10 counterexample: at the concrete input whose post-filtered candidate
list would have length 2 > limit 1, the program produces no response at all —
result construction raises ValidationError (surfaced as HTTP 500) because
created_at is required and the SQL rows carry none — so the claimed response
with total_count exceeding the limit does not occur. -/
theorem total_count_overshoot_cex :
    searchDocuments c10db c10req 5 =
      .error ⟨500,
        "ValidationError: created_at input should be a valid datetime, received None"⟩ :=
  rfl

theorem buildVectorResults_ok_nil (rows : List VRow)
    (rs : List DocumentSearchResult) (h : buildVectorResults rows = .ok rs) :
    rs = [] := by
  cases rows with
  | nil => injection h with h1; exact h1.symm
  | cons doc rest => simp [buildVectorResults, mkDocumentSearchResult] at h

theorem buildFulltextResults_ok_nil (rows : List FRow)
    (rs : List DocumentSearchResult) (h : buildFulltextResults rows = .ok rs) :
    rs = [] := by
  cases rows with
  | nil => injection h with h1; exact h1.symm
  | cons doc rest => simp [buildFulltextResults, mkDocumentSearchResult] at h

theorem hybridSearchDB_ok_nil (db : SearchDB) (limit : Nat) (threshold : ℚ)
    (rs : List DocumentSearchResult)
    (h : hybridSearchDB db limit threshold = .ok rs) : rs = [] := by
  unfold hybridSearchDB at h
  cases hv : vectorSearch db (limit * 2) threshold with
  | error e => rw [hv] at h; cases h
  | ok vr =>
    rw [hv] at h
    cases hf : fulltextSearch db (limit * 2) with
    | error e => rw [hf] at h; cases h
    | ok fr =>
      rw [hf] at h
      injection h with h1
      rw [← h1, buildVectorResults_ok_nil _ _ hv, buildFulltextResults_ok_nil _ _ hf]
      simp [hybridFuse, combinedResults, addVectorResults, addFulltextResults,
        sortByScoreDesc]

theorem modeResults_ok_nil (db : SearchDB) (req : DocumentSearchRequest)
    (results : List DocumentSearchResult)
    (h : modeResults db req = some (.ok results)) : results = [] := by
  simp only [modeResults] at h
  split_ifs at h
  all_goals first
    | (injection h with h1; exact buildVectorResults_ok_nil _ _ h1)
    | (injection h with h1; exact buildFulltextResults_ok_nil _ _ h1)
    | (injection h with h1; exact hybridSearchDB_ok_nil _ _ _ _ h1)

theorem applyFileTypeFilter_nil (req : DocumentSearchRequest) :
    applyFileTypeFilter req [] = .ok [] := by
  unfold applyFileTypeFilter
  split_ifs <;> rfl

theorem applyDateFilter_nil (req : DocumentSearchRequest) :
    applyDateFilter req [] = [] := by
  unfold applyDateFilter
  split_ifs <;> rfl

/-- C10 (amended): in every successful response of search_documents,
total_count is the length of the post-filtered candidate list before the
final truncation to limit, the returned results are that list truncated to
limit, and hence total_count is at least the number of returned results — but
total_count never exceeds the limit: a mode sub-search succeeds only on an
empty row set (every row construction raises ValidationError on the missing
required created_at), so every successful response has total_count = 0 and an
empty result list. -/
theorem total_count_prefilter_semantics :
    (∀ db req timeMs resp, searchDocuments db req timeMs = .ok resp →
      ∃ filtered, postFilteredOf db req = some filtered ∧
        resp.total_count = filtered.length ∧
        resp.results = filtered.take req.limit ∧
        resp.results.length ≤ resp.total_count) ∧
    (∀ db req timeMs resp, searchDocuments db req timeMs = .ok resp →
      resp.total_count = 0 ∧ resp.results = []) := by
  constructor
  · intro db req timeMs resp h
    unfold searchDocuments at h
    unfold postFilteredOf
    cases hm : modeResults db req with
    | none => rw [hm] at h; cases h
    | some mr =>
      rw [hm] at h
      cases mr with
      | error e => simp only [] at h ⊢; cases h
      | ok results =>
        simp only [] at h ⊢
        cases hft : applyFileTypeFilter req results with
        | error e => rw [hft] at h; cases h
        | ok r1 =>
          rw [hft] at h
          cases h
          refine ⟨applyDateFilter req r1, rfl, rfl, rfl, ?_⟩
          rw [List.length_take]
          exact Nat.min_le_right _ _
  · intro db req timeMs resp h
    unfold searchDocuments at h
    cases hm : modeResults db req with
    | none => rw [hm] at h; cases h
    | some mr =>
      rw [hm] at h
      cases mr with
      | error e => simp only [] at h; cases h
      | ok results =>
        have hnil := modeResults_ok_nil db req results hm
        subst hnil
        simp only [] at h
        rw [applyFileTypeFilter_nil req] at h
        simp only [applyDateFilter_nil req] at h
        cases h
        exact ⟨rfl, List.take_nil⟩

/-- Search capability with no rows at all: the only kind under which the modes
succeed. -/
def c10emptyDb : SearchDB := ⟨fun _ _ => [], fun _ => []⟩

/-- The response search_documents produces for c10req over the empty store. -/
def c10resp : DocumentSearchResponse :=
  { results := [], total_count := 0, search_type := "fulltext",
    execution_time_ms := 5, query := "q" }

/-- C10 witness: the semantics applied to the concrete full-text request over
the empty store, the successful case. -/
theorem total_count_prefilter_semantics_witness :
    (∃ filtered, postFilteredOf c10emptyDb c10req = some filtered ∧
      c10resp.total_count = filtered.length ∧
      c10resp.results = filtered.take c10req.limit ∧
      c10resp.results.length ≤ c10resp.total_count) ∧
    (c10resp.total_count = 0 ∧ c10resp.results = []) :=
  ⟨total_count_prefilter_semantics.1 c10emptyDb c10req 5 c10resp rfl,
   total_count_prefilter_semantics.2 c10emptyDb c10req 5 c10resp rfl⟩

end SmartDocFlow
